import Mathlib

/-!
Verification of the weather-dashboard fetch-and-normalize pipeline
(`src/weather-dashboard/src/{client,error,models}.rs`).

The external collaborators of the pipeline — the HTTP transport (reqwest) and the
text-to-JSON parsing layer (the serde_json lexer) — are modelled as parameters:
`send` maps a request URL to an HTTP outcome, `parse` maps a raw body string
to a JSON value (or a parse-failure message).  Everything the repository
itself defines — the provider schema structs and their field-by-field
(serde-derived) decoding, the error enum with its `From` conversions, and the
control flow of `fetch_weather` — is embedded directly below.

Floating-point provider fields (`f64` in the source) are modelled as
rationals: the pipeline moves these values around verbatim and performs no
arithmetic on them, so the value flow is representation-independent.
-/
namespace WeatherDashboard

/-- JSON numbers as serde_json represents them: an unsigned-integer arm, a
negative-integer arm, and a floating arm.  A lexically integral token lands
in `posInt`/`negInt`; a token with a fraction or exponent lands in `float`. -/
inductive JsonNumber where
  | posInt (n : Nat)
  | negInt (i : Int)
  | float (q : Rat)
deriving DecidableEq, Repr

/-- JSON values (the output of the external text-to-JSON parsing layer). -/
inductive Json where
  | null
  | bool (b : Bool)
  | num (n : JsonNumber)
  | str (s : String)
  | arr (elems : List Json)
  | obj (fields : List (String × Json))

/-- reqwest errors, as the pipeline can observe them: a transport-level
failure (DNS, connect, TLS, timeout) from `send()`, or a body-decode failure
from `Response::json()` (reqwest wraps serde failures in its own error
type with the decode kind). -/
inductive ReqwestError where
  | transport (msg : String)
  | decode (msg : String)
deriving DecidableEq, Repr

/-- The `WeatherError` enum from `src/weather-dashboard/src/error.rs`.  `ApiError`
carries a formatted message; `ParseError` holds a serde_json error
(modelled by its message); `NetworkError` holds a reqwest error;
`CityNotFound` is declared but never constructed by the pipeline. -/
inductive WeatherError where
  | ApiError (msg : String)
  | ParseError (msg : String)
  | NetworkError (e : ReqwestError)
  | CityNotFound (city : String)
deriving DecidableEq, Repr

/-- The four top-level classification kinds of `WeatherError` (its enum
variants). -/
inductive ErrorKind where
  | api
  | parse
  | network
  | cityNotFound
deriving DecidableEq, Repr

/-- The top-level variant (classification kind) of a `WeatherError`. -/
def WeatherError.kind : WeatherError → ErrorKind
  | .ApiError _ => .api
  | .ParseError _ => .parse
  | .NetworkError _ => .network
  | .CityNotFound _ => .cityNotFound

/-- The classification kind of a fetch result, when the result is an error. -/
def resultKind : Except WeatherError α → Option ErrorKind
  | .ok _ => none
  | .error e => some e.kind

/-- The `WeatherData` struct from `src/weather-dashboard/src/models.rs`: the unified
reading the pipeline returns (`humidity` is `u8` in the source; the decoder
below enforces the `≤ 255` bound). -/
structure WeatherData where
  temperature : Rat
  feels_like : Rat
  humidity : Nat
  description : String
  wind_speed : Rat
  source : String
deriving DecidableEq, Repr

/-- The `Condition` struct from `models.rs`. -/
structure Condition where
  text : String
deriving DecidableEq, Repr

/-- The `Current` struct from `models.rs`. -/
structure Current where
  temp_c : Rat
  temp_f : Rat
  feelslike_c : Rat
  feelslike_f : Rat
  humidity : Nat
  condition : Condition
  wind_kph : Rat
  wind_mph : Rat
deriving DecidableEq, Repr

/-- The `Location` struct from `models.rs`. -/
structure Location where
  name : String
  country : String
deriving DecidableEq, Repr

/-- The `WeatherApiResponse` struct from `models.rs`: the provider-specific decode
target. -/
structure WeatherApiResponse where
  location : Location
  current : Current
deriving DecidableEq, Repr

/-- Looks up a required struct field in a JSON value, as the serde derived
deserializer does: the value must be an object, the field must be present,
and a duplicated known field is an error. -/
def getField (j : Json) (key : String) : Except String Json :=
  match j with
  | .obj fields =>
    match fields.filter (fun p => p.1 == key) with
    | [] => .error ("missing field " ++ key)
    | [p] => .ok p.2
    | _ => .error ("duplicate field " ++ key)
  | _ => .error "invalid type: expected struct"

/-- serde decoding of a `String` field. -/
def decodeString : Json → Except String String
  | .str s => .ok s
  | _ => .error "invalid type: expected a string"

/-- serde decoding of an `f64` field: any JSON number is accepted. -/
def decodeF64 : Json → Except String Rat
  | .num (.posInt n) => .ok (n : Rat)
  | .num (.negInt i) => .ok (i : Rat)
  | .num (.float q) => .ok q
  | _ => .error "invalid type: expected f64"

/-- serde decoding of a `u8` field: an integral JSON number in `[0, 255]`
is accepted; anything else (a float, a negative or out-of-range integer,
a non-number) is a decode error. -/
def decodeU8 : Json → Except String Nat
  | .num (.posInt n) => if n ≤ 255 then .ok n else .error "invalid value: out of range for u8"
  | .num (.negInt i) =>
    if 0 ≤ i ∧ i ≤ 255 then .ok i.toNat else .error "invalid value: out of range for u8"
  | _ => .error "invalid type: expected u8"

/-- Derived deserialization of `Condition`. -/
def Condition.decode (j : Json) : Except String Condition := do
  let text ← getField j "text" >>= decodeString
  pure { text := text }

/-- Derived deserialization of `Current`. -/
def Current.decode (j : Json) : Except String Current := do
  let temp_c ← getField j "temp_c" >>= decodeF64
  let temp_f ← getField j "temp_f" >>= decodeF64
  let feelslike_c ← getField j "feelslike_c" >>= decodeF64
  let feelslike_f ← getField j "feelslike_f" >>= decodeF64
  let humidity ← getField j "humidity" >>= decodeU8
  let condition ← getField j "condition" >>= Condition.decode
  let wind_kph ← getField j "wind_kph" >>= decodeF64
  let wind_mph ← getField j "wind_mph" >>= decodeF64
  pure { temp_c := temp_c, temp_f := temp_f, feelslike_c := feelslike_c,
         feelslike_f := feelslike_f, humidity := humidity, condition := condition,
         wind_kph := wind_kph, wind_mph := wind_mph }

/-- Derived deserialization of `Location`. -/
def Location.decode (j : Json) : Except String Location := do
  let name ← getField j "name" >>= decodeString
  let country ← getField j "country" >>= decodeString
  pure { name := name, country := country }

/-- Derived deserialization of `WeatherApiResponse`. -/
def WeatherApiResponse.decode (j : Json) : Except String WeatherApiResponse := do
  let location ← getField j "location" >>= Location.decode
  let current ← getField j "current" >>= Current.decode
  pure { location := location, current := current }

/-- The outcome of one HTTP GET, as reported by the external HTTP client:
either a transport-level failure or a response with a status code and a
body (read as text). -/
inductive HttpOutcome where
  | transportFail (msg : String)
  | response (status : Nat) (body : String)
deriving DecidableEq, Repr

/-- The success check `StatusCode::is_success`: the 2xx range. -/
def statusIsSuccess (status : Nat) : Bool :=
  200 ≤ status && status < 300

/-- The URL built by `fetch_weather` from the API key and the city
(`format!` in `client.rs`). -/
def buildUrl (apiKey city : String) : String :=
  "https://api.weatherapi.com/v1/current.json?key=" ++ apiKey ++ "&q=" ++ city ++ "&aqi=no"

/-- The message `fetch_weather` formats into `WeatherError::ApiError` for a
non-success status (`format!` in `client.rs`). -/
def apiErrorMsg (status : Nat) (body : String) : String :=
  "API returned status " ++ toString status ++ ": " ++ body

/-- Modelling of `Response::json::<WeatherApiResponse>()`: parse the body text to JSON
via the external layer, then run the derived schema decode.  Either failure
is reported as a reqwest decode-kind error. -/
def responseJson (parse : String → Except String Json) (body : String) :
    Except ReqwestError WeatherApiResponse :=
  match parse body with
  | .error e => .error (.decode e)
  | .ok j =>
    match WeatherApiResponse.decode j with
    | .error e => .error (.decode e)
    | .ok resp => .ok resp

/-- The unit-selection `match` in `fetch_weather`: `"imperial"` selects the
Fahrenheit/mph fields, every other string falls into the catch-all arm and
selects the Celsius/kph fields. -/
def selectUnits (units : String) (current : Current) : Rat × Rat × Rat :=
  match units with
  | "imperial" => (current.temp_f, current.feelslike_f, current.wind_mph)
  | _ => (current.temp_c, current.feelslike_c, current.wind_kph)

/-- The projection of a decoded provider response into `WeatherData`
(the final `Ok(WeatherData { .. })` expression of `fetch_weather`). -/
def toWeatherData (units : String) (resp : WeatherApiResponse) : WeatherData :=
  let sel := selectUnits units resp.current
  { temperature := sel.1
    feels_like := sel.2.1
    humidity := resp.current.humidity
    description := resp.current.condition.text
    wind_speed := sel.2.2
    source := "WeatherAPI.com - " ++ resp.location.name ++ ", " ++ resp.location.country }

/-- Handling of one HTTP outcome by `fetch_weather`: a transport failure is
converted by `?` (via `From<reqwest::Error>`) into `NetworkError`; a
non-success status produces `ApiError` with the formatted message; a success
status runs `Response::json`, whose reqwest error is likewise converted by
`?` into `NetworkError`. -/
def handleOutcome (units : String) (parse : String → Except String Json) :
    HttpOutcome → Except WeatherError WeatherData
  | .transportFail msg => .error (.NetworkError (.transport msg))
  | .response status body =>
    if statusIsSuccess status then
      match responseJson parse body with
      | .error e => .error (.NetworkError e)
      | .ok resp => .ok (toWeatherData units resp)
    else
      .error (.ApiError (apiErrorMsg status body))

/-- The `WeatherClient` struct from `client.rs`: the reqwest client handle is the
external `send` capability; the struct holds the API key. -/
structure WeatherClient where
  api_key : String

/-- The method `WeatherClient::fetch_weather` from `client.rs`: build the URL, issue
one GET through the external client, then classify and decode. -/
def WeatherClient.fetch_weather (self : WeatherClient) (city units : String)
    (send : String → HttpOutcome) (parse : String → Except String Json) :
    Except WeatherError WeatherData :=
  handleOutcome units parse (send (buildUrl self.api_key city))

/-- An external client that fails at the transport level (unreachable host /
connection refused). -/
def sendRefused : String → HttpOutcome := fun _ => .transportFail "connection refused"

/-- An external client that answers 200 with a body that is not JSON. -/
def sendBadBody : String → HttpOutcome := fun _ => .response 200 "not json"

/-- An external parse layer that rejects every body. -/
def parseFail : String → Except String Json := fun _ => .error "expected value at line 1 column 1"

/-- A provider JSON value conforming to the schema except that
`current.temp_c` is absent. -/
def jsonMissingTempC : Json :=
  .obj [("location", .obj [("name", .str "London"), ("country", .str "UK")]),
        ("current", .obj [("temp_f", .num (.float 59)),
                          ("feelslike_c", .num (.float 14)),
                          ("feelslike_f", .num (.float (286/5))),
                          ("humidity", .num (.posInt 80)),
                          ("condition", .obj [("text", .str "Cloudy")]),
                          ("wind_kph", .num (.float 10)),
                          ("wind_mph", .num (.float (31/5)))])]

/-- An external parse layer that maps every body to `jsonMissingTempC`. -/
def parseMissingTempC : String → Except String Json := fun _ => .ok jsonMissingTempC

/-- A provider JSON body with the shape of the schema, parameterized by every field
value; `hum` is the raw JSON number under `current.humidity`. -/
def mkProviderJson (name country : String) (tc tf fc ff : Rat) (hum : JsonNumber)
    (text : String) (wk wm : Rat) : Json :=
  .obj [("location", .obj [("name", .str name), ("country", .str country)]),
        ("current", .obj [("temp_c", .num (.float tc)),
                          ("temp_f", .num (.float tf)),
                          ("feelslike_c", .num (.float fc)),
                          ("feelslike_f", .num (.float ff)),
                          ("humidity", .num hum),
                          ("condition", .obj [("text", .str text)]),
                          ("wind_kph", .num (.float wk)),
                          ("wind_mph", .num (.float wm))])]

/-- The JSON value of the London example body from the spec. -/
def londonJson : Json :=
  mkProviderJson "London" "UK" 15 59 14 (286/5) (.posInt 80) "Cloudy" 10 (31/5)

/-- The raw text of the London example body from the spec. -/
def londonBody : String :=
  "\x7b\"location\":\x7b\"name\":\"London\",\"country\":\"UK\"\x7d,\"current\":\x7b\"temp_c\":15.0,\"temp_f\":59.0,\"feelslike_c\":14.0,\"feelslike_f\":57.2,\"humidity\":80,\"condition\":\x7b\"text\":\"Cloudy\"\x7d,\"wind_kph\":10.0,\"wind_mph\":6.2\x7d\x7d"

/-- The decoded form of the London example body. -/
def londonResp : WeatherApiResponse :=
  { location := { name := "London", country := "UK" },
    current := { temp_c := 15, temp_f := 59, feelslike_c := 14, feelslike_f := 286/5,
                 humidity := 80, condition := { text := "Cloudy" },
                 wind_kph := 10, wind_mph := 31/5 } }

/-- An external client answering 200 with the London example body. -/
def sendLondon : String → HttpOutcome := fun _ => .response 200 londonBody

/-- An external parse layer reading every body as the London example JSON. -/
def parseLondon : String → Except String Json := fun _ => .ok londonJson

/-- An external client answering 200 with an opaque body text. -/
def send200 : String → HttpOutcome := fun _ => .response 200 "body200"

/-- A schema-conforming provider JSON whose humidity is 200. -/
def json200 : Json :=
  mkProviderJson "London" "UK" 15 59 14 (286/5) (.posInt 200) "Cloudy" 10 (31/5)

/-- An external parse layer reading every body as `json200`. -/
def parse200 : String → Except String Json := fun _ => .ok json200

/-- A provider JSON conforming to the coded schema whose condition text is
the empty string. -/
def jsonEmptyText : Json :=
  mkProviderJson "London" "UK" 15 59 14 (286/5) (.posInt 80) "" 10 (31/5)

/-- An external parse layer reading every body as `jsonEmptyText`. -/
def parseEmptyText : String → Except String Json := fun _ => .ok jsonEmptyText

/-- The humidity of a successful fetch result, if any. -/
def okHumidity : Except WeatherError WeatherData → Option Nat
  | .ok r => some r.humidity
  | .error _ => none

/-- Whether a fetch result is a `NetworkError` wrapping a reqwest
body-decode failure. -/
def isReqwestDecodeError : Except WeatherError WeatherData → Bool
  | .error (.NetworkError (.decode _)) => true
  | _ => false

/-- A schema-conforming provider JSON whose humidity is 150. -/
def json150 : Json :=
  mkProviderJson "London" "UK" 15 59 14 (286/5) (.posInt 150) "Cloudy" 10 (31/5)

/-- An external parse layer reading every body as `json150`. -/
def parse150 : String → Except String Json := fun _ => .ok json150

/-- Claim C1: a transport failure yields the `NetworkError` (transport) kind, which
differs from the `ApiError` (HTTP status) kind; but a decode failure of the same
pipeline also yields the `NetworkError` kind — `Response::json()` errors are
`reqwest::Error`s, converted by `?` through `From<reqwest::Error>` into
`NetworkError`, so transport and decode failures share one top-level kind and
the `ParseError` variant is unreachable. -/
theorem fetch_transport_and_decode_failures_share_kind :
    (WeatherClient.mk "K").fetch_weather "London" "metric" sendRefused parseFail
      = .error (.NetworkError (.transport "connection refused"))
    ∧ (WeatherClient.mk "K").fetch_weather "London" "metric" sendBadBody parseFail
      = .error (.NetworkError (.decode "expected value at line 1 column 1"))
    ∧ resultKind ((WeatherClient.mk "K").fetch_weather "London" "metric" sendRefused parseFail)
      = some .network
    ∧ resultKind ((WeatherClient.mk "K").fetch_weather "London" "metric" sendBadBody parseFail)
      = some .network
    ∧ ErrorKind.network ≠ ErrorKind.api :=
  ⟨rfl, rfl, rfl, rfl, by simp⟩

/-- Claim C2: for every response whose status is outside the 2xx range, with any
body text, `fetch_weather` returns `ApiError` carrying the formatted message
built from exactly that status and that body; the result does not depend on
the parse layer (the body is never parsed as the provider schema). -/
theorem fetch_nonsuccess_yields_ApiError (c : WeatherClient) (city units : String)
    (send : String → HttpOutcome) (parse : String → Except String Json)
    (status : Nat) (body : String)
    (hsend : send (buildUrl c.api_key city) = .response status body)
    (hstatus : statusIsSuccess status = false) :
    c.fetch_weather city units send parse = .error (.ApiError (apiErrorMsg status body)) := by
  unfold WeatherClient.fetch_weather
  rw [hsend]
  simp [handleOutcome, hstatus]

/-- Witness for C2 at status 404 and body "city not found". -/
theorem fetch_nonsuccess_yields_ApiError_witness :
    (fun _ => .response 404 "city not found" : String → HttpOutcome)
        (buildUrl "K" "London") = .response 404 "city not found"
    ∧ statusIsSuccess 404 = false
    ∧ (WeatherClient.mk "K").fetch_weather "London" "metric"
        (fun _ => .response 404 "city not found") parseFail
      = .error (.ApiError (apiErrorMsg 404 "city not found")) :=
  ⟨rfl, rfl,
    fetch_nonsuccess_yields_ApiError (WeatherClient.mk "K") "London" "metric"
      (fun _ => .response 404 "city not found") parseFail 404 "city not found" rfl rfl⟩

/-- Claim C3: a success-status body that is not valid JSON, or that is missing the
required field `current.temp_c`, makes `fetch_weather` fail — but with the
`NetworkError` kind (wrapping the reqwest decode error from `Response::json()`),
not with the `ParseError`/decode kind the spec prescribes: the `?` operator
converts the `reqwest::Error` via `From<reqwest::Error>` into `NetworkError`,
and the `ParseError` variant is dead code. -/
theorem fetch_decode_failure_is_NetworkError_kind :
    (WeatherClient.mk "K").fetch_weather "London" "metric" sendBadBody parseFail
      = .error (.NetworkError (.decode "expected value at line 1 column 1"))
    ∧ (WeatherClient.mk "K").fetch_weather "London" "metric" sendBadBody parseMissingTempC
      = .error (.NetworkError (.decode "missing field temp_c"))
    ∧ resultKind ((WeatherClient.mk "K").fetch_weather "London" "metric" sendBadBody parseFail)
      ≠ some .parse
    ∧ resultKind ((WeatherClient.mk "K").fetch_weather "London" "metric" sendBadBody parseMissingTempC)
      ≠ some .parse :=
  ⟨rfl, rfl, by decide, by decide⟩

/-- Claim C8: `fetch_weather` hands the external HTTP client exactly the URL built
by `buildUrl`, which is the literal concatenation
`https://api.weatherapi.com/v1/current.json?key=` ++ key ++ `&q=` ++ city ++
`&aqi=no`; for a fixed key the city is embedded verbatim and injectively
(two distinct cities never produce the same URL). -/
theorem fetch_url_embeds_city_verbatim (key city city2 units : String)
    (send : String → HttpOutcome) (parse : String → Except String Json)
    (hurl : buildUrl key city2 = buildUrl key city) :
    (WeatherClient.mk key).fetch_weather city units send parse
      = handleOutcome units parse (send (buildUrl key city))
    ∧ buildUrl key city
      = "https://api.weatherapi.com/v1/current.json?key=" ++ key ++ "&q=" ++ city ++ "&aqi=no"
    ∧ city2 = city := by
  refine ⟨rfl, rfl, ?_⟩
  have hd : (buildUrl key city2).data = (buildUrl key city).data := by rw [hurl]
  simp only [buildUrl, String.data_append] at hd
  apply String.ext
  exact List.append_cancel_left (List.append_cancel_right hd)

/-- Witness for C8 at a concrete key and city. -/
theorem fetch_url_embeds_city_verbatim_witness :
    buildUrl "K" "London" = buildUrl "K" "London"
    ∧ ((WeatherClient.mk "K").fetch_weather "London" "metric" sendRefused parseFail
        = handleOutcome "metric" parseFail (sendRefused (buildUrl "K" "London"))
      ∧ buildUrl "K" "London"
        = "https://api.weatherapi.com/v1/current.json?key=" ++ "K" ++ "&q=" ++ "London" ++ "&aqi=no"
      ∧ "London" = "London") :=
  ⟨rfl, fetch_url_embeds_city_verbatim "K" "London" "London" "metric" sendRefused parseFail rfl⟩

/-- Claim C9: `fetch_weather` is a deterministic function of the client, the city,
the units, the provider response at the request URL, and the parse layer:
two calls with identical inputs whose providers answer identically produce
structurally equal results. -/
theorem fetch_deterministic (c : WeatherClient) (city units : String)
    (send1 send2 : String → HttpOutcome) (parse1 parse2 : String → Except String Json)
    (hsend : send1 (buildUrl c.api_key city) = send2 (buildUrl c.api_key city))
    (hparse : parse1 = parse2) :
    c.fetch_weather city units send1 parse1 = c.fetch_weather city units send2 parse2 := by
  unfold WeatherClient.fetch_weather
  rw [hsend, hparse]

/-- Witness for C9: two separate calls with identical inputs and identically
answering providers agree. -/
theorem fetch_deterministic_witness :
    sendBadBody (buildUrl "K" "London") = sendBadBody (buildUrl "K" "London")
    ∧ parseFail = parseFail
    ∧ (WeatherClient.mk "K").fetch_weather "London" "metric" sendBadBody parseFail
      = (WeatherClient.mk "K").fetch_weather "London" "metric" sendBadBody parseFail :=
  ⟨rfl, rfl,
    fetch_deterministic (WeatherClient.mk "K") "London" "metric"
      sendBadBody sendBadBody parseFail parseFail rfl rfl⟩

/-- Inversion of a successful `Except` bind. -/
theorem bind_ok_inv {α β : Type} {x : Except String α} {f : α → Except String β} {b : β}
    (h : (x >>= f) = .ok b) : ∃ a, x = .ok a ∧ f a = .ok b := by
  cases x with
  | ok a => exact ⟨a, rfl, h⟩
  | error e => exact absurd h (by simp [Bind.bind, Except.bind])

/-- A value accepted by the `u8` decoder is at most 255. -/
theorem decodeU8_le {j : Json} {n : Nat} (h : decodeU8 j = .ok n) : n ≤ 255 := by
  unfold decodeU8 at h
  split at h
  · split at h
    · injection h with h; omega
    · exact absurd h (by simp)
  · split at h
    · injection h with h; omega
    · exact absurd h (by simp)
  · exact absurd h (by simp)

/-- A decoded `Current` record has `humidity ≤ 255` (the `u8` range). -/
theorem current_decode_humidity_le {j : Json} {cur : Current}
    (h : Current.decode j = .ok cur) : cur.humidity ≤ 255 := by
  simp only [Current.decode] at h
  obtain ⟨tc, -, h⟩ := bind_ok_inv h
  obtain ⟨tf, -, h⟩ := bind_ok_inv h
  obtain ⟨fc, -, h⟩ := bind_ok_inv h
  obtain ⟨ff, -, h⟩ := bind_ok_inv h
  obtain ⟨hum, hh, h⟩ := bind_ok_inv h
  obtain ⟨cond, -, h⟩ := bind_ok_inv h
  obtain ⟨wk, -, h⟩ := bind_ok_inv h
  obtain ⟨wm, -, h⟩ := bind_ok_inv h
  obtain ⟨jh, -, hu⟩ := bind_ok_inv hh
  injection h with h2
  subst h2
  show hum ≤ 255
  exact decodeU8_le hu

/-- A decoded provider response has `humidity ≤ 255` (the `u8` range). -/
theorem response_decode_humidity_le {j : Json} {resp : WeatherApiResponse}
    (h : WeatherApiResponse.decode j = .ok resp) : resp.current.humidity ≤ 255 := by
  simp only [WeatherApiResponse.decode] at h
  obtain ⟨loc, -, h⟩ := bind_ok_inv h
  obtain ⟨cur, hcur, h⟩ := bind_ok_inv h
  obtain ⟨jc, -, hc⟩ := bind_ok_inv hcur
  injection h with h2
  subst h2
  show cur.humidity ≤ 255
  exact current_decode_humidity_le hc

/-- Claim C4: when the provider body decodes, `fetch_weather` returns the projection
of the decoded response, whose temperature, feels-like and wind-speed fields are
the provider `temp_f`/`feelslike_f`/`wind_mph` fields verbatim when `units` is
exactly `"imperial"`, and the provider `temp_c`/`feelslike_c`/`wind_kph` fields
verbatim for `"metric"` and for every other (unrecognized) units string. -/
theorem fetch_selects_fields_by_units (c : WeatherClient) (city units : String)
    (send : String → HttpOutcome) (parse : String → Except String Json)
    (status : Nat) (body : String) (j : Json) (resp : WeatherApiResponse)
    (hsend : send (buildUrl c.api_key city) = .response status body)
    (hstatus : statusIsSuccess status = true)
    (hparse : parse body = .ok j)
    (hdecode : WeatherApiResponse.decode j = .ok resp) :
    c.fetch_weather city units send parse = .ok (toWeatherData units resp)
    ∧ (units = "imperial" →
        (toWeatherData units resp).temperature = resp.current.temp_f
        ∧ (toWeatherData units resp).feels_like = resp.current.feelslike_f
        ∧ (toWeatherData units resp).wind_speed = resp.current.wind_mph)
    ∧ (units ≠ "imperial" →
        (toWeatherData units resp).temperature = resp.current.temp_c
        ∧ (toWeatherData units resp).feels_like = resp.current.feelslike_c
        ∧ (toWeatherData units resp).wind_speed = resp.current.wind_kph) := by
  refine ⟨?_, ?_, ?_⟩
  · unfold WeatherClient.fetch_weather
    rw [hsend]
    simp [handleOutcome, hstatus, responseJson, hparse, hdecode]
  · intro h
    subst h
    exact ⟨rfl, rfl, rfl⟩
  · intro h
    have hs : selectUnits units resp.current
        = (resp.current.temp_c, resp.current.feelslike_c, resp.current.wind_kph) := by
      unfold selectUnits
      split
      · exact absurd rfl (by assumption)
      · rfl
    refine ⟨?_, ?_, ?_⟩ <;> simp only [toWeatherData, hs]

/-- Witness for C4 at the unrecognized units string "Imperial", which silently
falls back to the metric fields. -/
theorem fetch_selects_fields_by_units_witness :
    sendLondon (buildUrl "K" "London") = .response 200 londonBody
    ∧ statusIsSuccess 200 = true
    ∧ parseLondon londonBody = .ok londonJson
    ∧ WeatherApiResponse.decode londonJson = .ok londonResp
    ∧ (WeatherClient.mk "K").fetch_weather "London" "Imperial" sendLondon parseLondon
      = .ok (toWeatherData "Imperial" londonResp)
    ∧ (toWeatherData "Imperial" londonResp).temperature = londonResp.current.temp_c
    ∧ (toWeatherData "Imperial" londonResp).feels_like = londonResp.current.feelslike_c
    ∧ (toWeatherData "Imperial" londonResp).wind_speed = londonResp.current.wind_kph :=
  have h := fetch_selects_fields_by_units (WeatherClient.mk "K") "London" "Imperial"
    sendLondon parseLondon 200 londonBody londonJson londonResp rfl rfl (by rfl) (by rfl)
  have hm := h.2.2 (by decide)
  ⟨rfl, rfl, by rfl, by rfl, h.1, hm.1, hm.2.1, hm.2.2⟩

/-- Claim C7: on the London example of the spec (city "London", units "metric", the
example provider body), `fetch_weather` returns exactly the expected reading,
whose `source` is the provider name "WeatherAPI.com" composed with the resolved
location name and country. -/
theorem fetch_london_example (c : WeatherClient)
    (send : String → HttpOutcome) (parse : String → Except String Json)
    (hsend : send (buildUrl c.api_key "London") = .response 200 londonBody)
    (hparse : parse londonBody = .ok londonJson) :
    c.fetch_weather "London" "metric" send parse
      = .ok { temperature := 15, feels_like := 14, humidity := 80, description := "Cloudy",
              wind_speed := 10, source := "WeatherAPI.com - London, UK" } := by
  unfold WeatherClient.fetch_weather
  rw [hsend]
  simp only [handleOutcome]
  rw [if_pos (by decide : statusIsSuccess 200 = true)]
  unfold responseJson
  rw [hparse]
  rfl

/-- Witness for C7 with a concrete client, provider, and parse layer. -/
theorem fetch_london_example_witness :
    sendLondon (buildUrl "K" "London") = .response 200 londonBody
    ∧ parseLondon londonBody = .ok londonJson
    ∧ (WeatherClient.mk "K").fetch_weather "London" "metric" sendLondon parseLondon
      = .ok { temperature := 15, feels_like := 14, humidity := 80, description := "Cloudy",
              wind_speed := 10, source := "WeatherAPI.com - London, UK" } :=
  ⟨rfl, by rfl,
    fetch_london_example (WeatherClient.mk "K") sendLondon parseLondon rfl (by rfl)⟩

/-- Claim C5 (counterexample): a success-status body conforming to the coded
provider schema (`humidity` is `u8`) with humidity 200 decodes, and
`fetch_weather` returns a reading whose humidity is 200, outside `[0,100]`. -/
theorem fetch_humidity_can_exceed_100 :
    (WeatherClient.mk "K").fetch_weather "London" "metric" send200 parse200
      = .ok { temperature := 15, feels_like := 14, humidity := 200, description := "Cloudy",
              wind_speed := 10, source := "WeatherAPI.com - London, UK" }
    ∧ ¬ (WeatherData.humidity
          { temperature := 15, feels_like := 14, humidity := 200, description := "Cloudy",
            wind_speed := 10, source := "WeatherAPI.com - London, UK" } ≤ 100) :=
  ⟨rfl, by decide⟩

/-- Claim C5 (amended): for every success-status body that decodes under the
coded provider schema, `fetch_weather` returns a reading whose humidity is in
the `u8` range `[0,255]`. -/
theorem fetch_humidity_le_255 (c : WeatherClient) (city units : String)
    (send : String → HttpOutcome) (parse : String → Except String Json)
    (status : Nat) (body : String) (j : Json) (resp : WeatherApiResponse)
    (hsend : send (buildUrl c.api_key city) = .response status body)
    (hstatus : statusIsSuccess status = true)
    (hparse : parse body = .ok j)
    (hdecode : WeatherApiResponse.decode j = .ok resp) :
    c.fetch_weather city units send parse = .ok (toWeatherData units resp)
    ∧ (toWeatherData units resp).humidity ≤ 255 := by
  constructor
  · unfold WeatherClient.fetch_weather
    rw [hsend]
    simp [handleOutcome, hstatus, responseJson, hparse, hdecode]
  · show resp.current.humidity ≤ 255
    exact response_decode_humidity_le hdecode

/-- Witness for the amended C5 on the London example. -/
theorem fetch_humidity_le_255_witness :
    sendLondon (buildUrl "K" "London") = .response 200 londonBody
    ∧ statusIsSuccess 200 = true
    ∧ parseLondon londonBody = .ok londonJson
    ∧ WeatherApiResponse.decode londonJson = .ok londonResp
    ∧ ((WeatherClient.mk "K").fetch_weather "London" "metric" sendLondon parseLondon
        = .ok (toWeatherData "metric" londonResp)
      ∧ (toWeatherData "metric" londonResp).humidity ≤ 255) :=
  ⟨rfl, rfl, rfl, by rfl,
    fetch_humidity_le_255 (WeatherClient.mk "K") "London" "metric" sendLondon parseLondon
      200 londonBody londonJson londonResp rfl rfl rfl (by rfl)⟩

/-- Claim C6 (counterexample): a success-status body conforming to the coded
provider schema with an empty `current.condition.text` decodes, and
`fetch_weather` returns a reading whose description is the empty string. -/
theorem fetch_description_can_be_empty :
    (WeatherClient.mk "K").fetch_weather "London" "metric" send200 parseEmptyText
      = .ok { temperature := 15, feels_like := 14, humidity := 80, description := "",
              wind_speed := 10, source := "WeatherAPI.com - London, UK" }
    ∧ WeatherData.description
        { temperature := 15, feels_like := 14, humidity := 80, description := "",
          wind_speed := 10, source := "WeatherAPI.com - London, UK" } = "" :=
  ⟨rfl, rfl⟩

/-- Claim C6 (amended): for every success-status body that decodes under the
coded provider schema, the returned description is the provider condition
text copied verbatim — empty exactly when the provider text is empty. -/
theorem fetch_description_verbatim (c : WeatherClient) (city units : String)
    (send : String → HttpOutcome) (parse : String → Except String Json)
    (status : Nat) (body : String) (j : Json) (resp : WeatherApiResponse)
    (hsend : send (buildUrl c.api_key city) = .response status body)
    (hstatus : statusIsSuccess status = true)
    (hparse : parse body = .ok j)
    (hdecode : WeatherApiResponse.decode j = .ok resp) :
    c.fetch_weather city units send parse = .ok (toWeatherData units resp)
    ∧ (toWeatherData units resp).description = resp.current.condition.text
    ∧ ((toWeatherData units resp).description = "" ↔ resp.current.condition.text = "") := by
  refine ⟨?_, rfl, Iff.rfl⟩
  unfold WeatherClient.fetch_weather
  rw [hsend]
  simp [handleOutcome, hstatus, responseJson, hparse, hdecode]

/-- Witness for the amended C6 on the London example. -/
theorem fetch_description_verbatim_witness :
    sendLondon (buildUrl "K" "London") = .response 200 londonBody
    ∧ statusIsSuccess 200 = true
    ∧ parseLondon londonBody = .ok londonJson
    ∧ WeatherApiResponse.decode londonJson = .ok londonResp
    ∧ ((WeatherClient.mk "K").fetch_weather "London" "metric" sendLondon parseLondon
        = .ok (toWeatherData "metric" londonResp)
      ∧ (toWeatherData "metric" londonResp).description = londonResp.current.condition.text
      ∧ ((toWeatherData "metric" londonResp).description = ""
          ↔ londonResp.current.condition.text = "")) :=
  ⟨rfl, rfl, rfl, by rfl,
    fetch_description_verbatim (WeatherClient.mk "K") "London" "metric" sendLondon parseLondon
      200 londonBody londonJson londonResp rfl rfl rfl (by rfl)⟩

/-- Evaluation of the schema decode on a `mkProviderJson` body: everything
decodes deterministically except the humidity field, whose `u8` decode decides
the outcome. -/
theorem decode_mkProviderJson (name country text : String) (tc tf fc ff wk wm : Rat)
    (hum : JsonNumber) :
    WeatherApiResponse.decode (mkProviderJson name country tc tf fc ff hum text wk wm)
      = match decodeU8 (.num hum) with
        | .error e => .error e
        | .ok h =>
          .ok { location := { name := name, country := country },
                current := { temp_c := tc, temp_f := tf, feelslike_c := fc, feelslike_f := ff,
                             humidity := h, condition := { text := text },
                             wind_kph := wk, wind_mph := wm } } := by
  cases hum with
  | posInt n => by_cases hn : n ≤ 255 <;> simp [mkProviderJson, WeatherApiResponse.decode,
      Location.decode, Current.decode, Condition.decode, getField, decodeString, decodeF64,
      decodeU8, hn, Bind.bind, Except.bind, pure, Except.pure]
  | negInt i => by_cases hi : 0 ≤ i ∧ i ≤ 255 <;> simp [mkProviderJson, WeatherApiResponse.decode,
      Location.decode, Current.decode, Condition.decode, getField, decodeString, decodeF64,
      decodeU8, hi, Bind.bind, Except.bind, pure, Except.pure]
  | float q => rfl

/-- Claim C10: the decoder reads `current.humidity` as a `u8`: on an otherwise
schema-conforming success-status body, an integral humidity in `[0,255]` is
accepted and passed through unchanged into the reading (so 101–255 are
accepted), while a humidity that is out of the `u8` range or carried as a
float fails the decode (surfacing, per the code, as a `NetworkError`-wrapped
reqwest decode failure). -/
theorem fetch_humidity_u8_semantics (c : WeatherClient) (city units : String)
    (send : String → HttpOutcome) (parse : String → Except String Json)
    (body : String) (name country text : String) (tc tf fc ff wk wm : Rat)
    (hum : JsonNumber)
    (hsend : send (buildUrl c.api_key city) = .response 200 body)
    (hparse : parse body = .ok (mkProviderJson name country tc tf fc ff hum text wk wm)) :
    (∀ n : Nat, hum = .posInt n →
        (n ≤ 255 → okHumidity (c.fetch_weather city units send parse) = some n)
        ∧ (255 < n → isReqwestDecodeError (c.fetch_weather city units send parse) = true))
    ∧ (∀ i : Int, hum = .negInt i →
        ((0 ≤ i ∧ i ≤ 255) → okHumidity (c.fetch_weather city units send parse) = some i.toNat)
        ∧ ((i < 0 ∨ 255 < i) → isReqwestDecodeError (c.fetch_weather city units send parse) = true))
    ∧ (∀ q : Rat, hum = .float q →
        isReqwestDecodeError (c.fetch_weather city units send parse) = true) := by
  have hfetch : c.fetch_weather city units send parse
      = match decodeU8 (.num hum) with
        | .error e => .error (.NetworkError (.decode e))
        | .ok h =>
          .ok (toWeatherData units
            { location := { name := name, country := country },
              current := { temp_c := tc, temp_f := tf, feelslike_c := fc, feelslike_f := ff,
                           humidity := h, condition := { text := text },
                           wind_kph := wk, wind_mph := wm } }) := by
    unfold WeatherClient.fetch_weather
    rw [hsend]
    simp only [handleOutcome, responseJson, hparse]
    rw [if_pos (by decide : statusIsSuccess 200 = true)]
    rw [decode_mkProviderJson]
    cases decodeU8 (.num hum) <;> rfl
  refine ⟨?_, ?_, ?_⟩
  · rintro n rfl
    constructor
    · intro hn
      rw [hfetch]
      simp only [decodeU8]
      rw [if_pos hn]
      rfl
    · intro hn
      rw [hfetch]
      simp only [decodeU8]
      rw [if_neg (by omega)]
      rfl
  · rintro i rfl
    constructor
    · intro hi
      rw [hfetch]
      simp only [decodeU8]
      rw [if_pos hi]
      rfl
    · intro hi
      rw [hfetch]
      simp only [decodeU8]
      rw [if_neg (by omega)]
      rfl
  · rintro q rfl
    rw [hfetch]
    rfl

/-- Witness for C10: the accepted humidity 150 (above 100, within u8 range)
passes through unchanged. -/
theorem fetch_humidity_u8_semantics_witness :
    send200 (buildUrl "K" "London") = .response 200 "body200"
    ∧ parse150 "body200"
      = .ok (mkProviderJson "London" "UK" 15 59 14 (286/5) (.posInt 150) "Cloudy" 10 (31/5))
    ∧ okHumidity ((WeatherClient.mk "K").fetch_weather "London" "metric" send200 parse150)
      = some 150 :=
  ⟨rfl, rfl,
    ((fetch_humidity_u8_semantics (WeatherClient.mk "K") "London" "metric" send200 parse150
        "body200" "London" "UK" "Cloudy" 15 59 14 (286/5) 10 (31/5) (.posInt 150)
        rfl rfl).1 150 rfl).1 (by decide)⟩

end WeatherDashboard
